import Mathlib

/-!
Shallow embedding of the data layer of the net-cafe-automation repository
(src/database.py) and proofs about its operations.

Modelling conventions:
- SQLite rows become Lean structures; the four tables become lists of rows
  inside a `DB` record. AUTOINCREMENT primary keys are modelled with
  `next_session_id` / `next_order_id` counters.
- Wall-clock time (`datetime.now()`) is passed explicitly as an integer
  number of seconds; ISO timestamp strings become these integers.
- Python floats (prices, rates, charges) are modelled as rationals.
  Python `round(x, n)` rounds half to even; `rhe` and `round2` model this
  exactly over the rationals.
- `sqlite3` fetchone on an unordered SELECT returns the first row in rowid
  (insertion) order, modelled by `List.find?`; an UPDATE with a WHERE clause
  rewrites every matching row, modelled by `List.map` with a guard.
-/

/-- Round half to even of a rational to an integer, modelling the Python
built-in `round(x)` on the exact value. -/
def rhe (q : ℚ) : ℤ :=
  if q - (⌊q⌋ : ℚ) < 1/2 then ⌊q⌋
  else if 1/2 < q - (⌊q⌋ : ℚ) then ⌊q⌋ + 1
  else if ⌊q⌋ % 2 = 0 then ⌊q⌋ else ⌊q⌋ + 1

/-- Python `round(x, 2)`: round to two decimal places, half to even. -/
def round2 (q : ℚ) : ℚ := (rhe (q * 100) : ℚ) / 100

/-- A row of the `tables` table (src/database.py init_db schema). -/
structure TableR where
  id : Nat
  name : String
  kind : String
  status : String
  hardware : String
  is_out_of_order : Int
deriving Repr, DecidableEq, Inhabited

/-- A row of the `sessions` table: `end_ts = none` means the session is
active; `planned_minutes` is NULL for Unlimited sessions. -/
structure SessionR where
  id : Nat
  table_id : Nat
  start_ts : Int
  end_ts : Option Int
  kind : String
  planned_minutes : Option Int
  hourly_rate : ℚ
deriving Repr, DecidableEq, Inhabited

/-- A row of the `products` table. -/
structure ProductR where
  id : Nat
  name : String
  category : String
  price : ℚ
  stock : Int
deriving Repr, DecidableEq, Inhabited

/-- A row of the `orders` table; `amount` is price times quantity captured
at order time. -/
structure OrderR where
  id : Nat
  session_id : Nat
  product_id : Nat
  quantity : Int
  amount : ℚ
deriving Repr, DecidableEq, Inhabited

/-- The whole database file: the four tables plus AUTOINCREMENT counters. -/
structure DB where
  tables : List TableR
  sessions : List SessionR
  products : List ProductR
  orders : List OrderR
  next_session_id : Nat
  next_order_id : Nat
deriving Repr, DecidableEq, Inhabited

/-- `fetch_table`: SELECT * FROM tables WHERE id=? (first match). -/
def fetch_table (db : DB) (table_id : Nat) : Option TableR :=
  db.tables.find? (fun tb => tb.id == table_id)

/-- `get_hourly_rate`: 0.0 for a missing table, 30.0 for VIP, 20.0 otherwise. -/
def get_hourly_rate (db : DB) (table_id : Nat) : ℚ :=
  match fetch_table db table_id with
  | none => 0
  | some tb => if tb.kind = "VIP" then 30 else 20

/-- `fetch_active_session`: SELECT * FROM sessions WHERE table_id=? AND
end_ts IS NULL (first match). -/
def fetch_active_session (db : DB) (table_id : Nat) : Option SessionR :=
  db.sessions.find? (fun s => s.table_id == table_id && s.end_ts.isNone)

/-- `start_timed_session`: insert a Timed session and mark the table
Occupied, unless the table already has an active session. -/
def start_timed_session (db : DB) (table_id : Nat) (minutes : Int) (now : Int) : DB :=
  match fetch_active_session db table_id with
  | some _ => db
  | none =>
    let rate := get_hourly_rate db table_id
    { db with
      sessions := db.sessions ++
        [⟨db.next_session_id, table_id, now, none, "Timed", some minutes, rate⟩]
      next_session_id := db.next_session_id + 1
      tables := db.tables.map (fun tb =>
        if tb.id == table_id then { tb with status := "Occupied" } else tb) }

/-- `start_unlimited_session`: insert an Unlimited session (NULL planned
minutes) and mark the table Occupied, unless one is already active. -/
def start_unlimited_session (db : DB) (table_id : Nat) (now : Int) : DB :=
  match fetch_active_session db table_id with
  | some _ => db
  | none =>
    let rate := get_hourly_rate db table_id
    { db with
      sessions := db.sessions ++
        [⟨db.next_session_id, table_id, now, none, "Unlimited", none, rate⟩]
      next_session_id := db.next_session_id + 1
      tables := db.tables.map (fun tb =>
        if tb.id == table_id then { tb with status := "Occupied" } else tb) }

/-- The SELECT stock, price FROM products WHERE id=? step of `add_order`. -/
def fetch_product (db : DB) (product_id : Nat) : Option ProductR :=
  db.products.find? (fun p => p.id == product_id)

/-- `add_order`: place an order against the active session of a table,
decrement the product stock, and return the success flag together with the
resulting database. -/
def add_order (db : DB) (table_id product_id : Nat) (quantity : Int) : Bool × DB :=
  match fetch_active_session db table_id with
  | none => (false, db)
  | some session =>
    match fetch_product db product_id with
    | none => (false, db)
    | some prod =>
      if prod.stock < quantity then (false, db)
      else
        (true,
         { db with
           orders := db.orders ++
             [⟨db.next_order_id, session.id, product_id, quantity,
               prod.price * (quantity : ℚ)⟩]
           next_order_id := db.next_order_id + 1
           products := db.products.map (fun p =>
             if p.id == product_id then { p with stock := p.stock - quantity } else p) })

/-- `int(round((end - start).total_seconds() / 60.0))`: elapsed wall-clock
minutes between two timestamps, rounded to the nearest minute. -/
def elapsedMinutes (start_ts now : Int) : Int :=
  rhe (((now - start_ts : Int) : ℚ) / 60)

/-- `_calculate_time_charge`: for a Timed session whose `planned_minutes`
is truthy (non-NULL and nonzero) the billed minutes are the planned
duration; otherwise the billed minutes are the elapsed wall-clock minutes
clamped below by 1. The charge is rate times minutes over 60, rounded to
two decimals. The `start_ts` column is NOT NULL in the schema, so the
Python fallback for a missing start timestamp is not modelled. -/
def calculate_time_charge (s : SessionR) (now : Int) : ℚ × Int :=
  match s.planned_minutes with
  | some m =>
    if s.kind = "Timed" ∧ m ≠ 0 then
      (round2 (s.hourly_rate * (m : ℚ) / 60), m)
    else
      let m0 := elapsedMinutes s.start_ts now
      let minutes := if m0 < 1 then 1 else m0
      (round2 (s.hourly_rate * (minutes : ℚ) / 60), minutes)
  | none =>
    let m0 := elapsedMinutes s.start_ts now
    let minutes := if m0 < 1 then 1 else m0
    (round2 (s.hourly_rate * (minutes : ℚ) / 60), minutes)

/-- `end_session`: close the active session (set its end timestamp), set
the table status to OutOfOrder or Empty depending on the out-of-order flag,
and return the (charge, minutes) pair; `((0, 0), db)` when no session is
active. -/
def end_session (db : DB) (table_id : Nat) (now : Int) : (ℚ × Int) × DB :=
  match fetch_active_session db table_id with
  | none => ((0, 0), db)
  | some session =>
    (calculate_time_charge session now,
     { db with
       sessions := db.sessions.map (fun s =>
         if s.id == session.id then { s with end_ts := some now } else s)
       tables := db.tables.map (fun tb =>
         if tb.id == table_id then
           { tb with status := if tb.is_out_of_order = 1 then "OutOfOrder" else "Empty" }
         else tb) })

/-- `mark_table_out_of_order`: set the flag and the OutOfOrder status. -/
def mark_table_out_of_order (db : DB) (table_id : Nat) : DB :=
  { db with
    tables := db.tables.map (fun tb =>
      if tb.id == table_id then { tb with is_out_of_order := 1, status := "OutOfOrder" } else tb) }

/-- The mutating operations of the data layer, for statements that
quantify over arbitrary sequences of calls. -/
inductive Op where
  | startTimed (table_id : Nat) (minutes : Int) (now : Int)
  | startUnlimited (table_id : Nat) (now : Int)
  | addOrder (table_id product_id : Nat) (quantity : Int)
  | endSession (table_id : Nat) (now : Int)
  | markOutOfOrder (table_id : Nat)
deriving Repr, DecidableEq

/-- Effect of one operation on the database. -/
def step (op : Op) (db : DB) : DB :=
  match op with
  | .startTimed t m now => start_timed_session db t m now
  | .startUnlimited t now => start_unlimited_session db t now
  | .addOrder t p q => (add_order db t p q).2
  | .endSession t now => (end_session db t now).2
  | .markOutOfOrder t => mark_table_out_of_order db t

/-- Effect of a sequence of operations, first operation first. -/
def run (ops : List Op) (db : DB) : DB := ops.foldl (fun d op => step op d) db

/-- The open sessions of one table. -/
def openSessions (db : DB) (t : Nat) : List SessionR :=
  db.sessions.filter (fun s => s.table_id == t && s.end_ts.isNone)

/-- The spec invariant: at most one open session per table. -/
def atMostOneOpen (db : DB) : Prop := ∀ t, (openSessions db t).length ≤ 1

/-- A small concrete database used to witness the theorems: two tables
(one VIP occupied by an open Unlimited session, one empty Standard),
two products, no orders yet. -/
def sampleDB : DB :=
  { tables := [⟨1, "Table 1", "VIP", "Occupied", "RTX 4060 Ti, 165Hz Monitor", 0⟩,
               ⟨2, "Table 6", "Standard", "Empty", "GTX 1650, 75Hz Monitor", 0⟩]
    sessions := [⟨1, 1, 0, none, "Unlimited", none, 30⟩]
    products := [⟨1, "Cola", "Drink", 25, 80⟩, ⟨2, "Pizza", "Food", 120, 30⟩]
    orders := []
    next_session_id := 2
    next_order_id := 1 }

/-! ### Helper lemmas about rounding -/

lemma rhe_ge_floor (q : ℚ) : ⌊q⌋ ≤ rhe q := by
  unfold rhe
  split_ifs <;> omega

lemma rhe_le_floor_add_one (q : ℚ) : rhe q ≤ ⌊q⌋ + 1 := by
  unfold rhe
  split_ifs <;> omega

lemma rhe_mono {q q' : ℚ} (h : q ≤ q') : rhe q ≤ rhe q' := by
  have hf : ⌊q⌋ ≤ ⌊q'⌋ := Int.floor_mono h
  rcases eq_or_lt_of_le hf with heq | hlt
  · have hceq : ((⌊q⌋ : ℤ) : ℚ) = ((⌊q'⌋ : ℤ) : ℚ) := by rw [heq]
    have hr : q - (⌊q⌋ : ℚ) ≤ q' - (⌊q'⌋ : ℚ) := by rw [← hceq]; linarith
    unfold rhe
    split_ifs <;> first | omega | linarith
  · have h1 : rhe q ≤ ⌊q⌋ + 1 := rhe_le_floor_add_one q
    have h2 : ⌊q'⌋ ≤ rhe q' := rhe_ge_floor q'
    omega

lemma round2_mono {q q' : ℚ} (h : q ≤ q') : round2 q ≤ round2 q' := by
  unfold round2
  have : rhe (q * 100) ≤ rhe (q' * 100) :=
    rhe_mono (mul_le_mul_of_nonneg_right h (by norm_num))
  have hc : ((rhe (q * 100) : ℤ) : ℚ) ≤ ((rhe (q' * 100) : ℤ) : ℚ) := by exact_mod_cast this
  linarith

/-- The charge component of `_calculate_time_charge` is always the rounded
rate times the minutes component over 60. -/
lemma charge_fst (s : SessionR) (now : Int) :
    (calculate_time_charge s now).1 =
      round2 (s.hourly_rate * (((calculate_time_charge s now).2 : ℤ) : ℚ) / 60) := by
  unfold calculate_time_charge
  cases s.planned_minutes with
  | none => simp
  | some m =>
    by_cases h : s.kind = "Timed" ∧ m ≠ 0
    · simp [h]
    · simp [h]

/-! ### Claim theorems -/

/-- C6: the charge computed by `_calculate_time_charge` is monotone
(non-decreasing) in the billed minutes: for two sessions with the same
non-negative hourly rate, whichever bills at least as many
elapsed-or-planned minutes is charged at least as much, also after
rounding to two decimals. -/
theorem time_charge_monotone (s₁ s₂ : SessionR) (now₁ now₂ : Int)
    (hrate : s₁.hourly_rate = s₂.hourly_rate) (hnn : 0 ≤ s₁.hourly_rate)
    (hm : (calculate_time_charge s₁ now₁).2 ≤ (calculate_time_charge s₂ now₂).2) :
    (calculate_time_charge s₁ now₁).1 ≤ (calculate_time_charge s₂ now₂).1 := by
  rw [charge_fst, charge_fst, hrate]
  apply round2_mono
  have hc : (((calculate_time_charge s₁ now₁).2 : ℤ) : ℚ) ≤
      (((calculate_time_charge s₂ now₂).2 : ℤ) : ℚ) := by exact_mod_cast hm
  have hmul : s₂.hourly_rate * (((calculate_time_charge s₁ now₁).2 : ℤ) : ℚ) ≤
      s₂.hourly_rate * (((calculate_time_charge s₂ now₂).2 : ℤ) : ℚ) :=
    mul_le_mul_of_nonneg_left hc (hrate ▸ hnn)
  linarith

/-- Witness for C6 at two concrete Timed sessions (30 and 90 planned
minutes, rate 30). -/
theorem time_charge_monotone_witness :
    ((⟨1, 1, 0, none, "Timed", some 30, 30⟩ : SessionR).hourly_rate =
        (⟨2, 2, 0, none, "Timed", some 90, 30⟩ : SessionR).hourly_rate ∧
      (0 : ℚ) ≤ (⟨1, 1, 0, none, "Timed", some 30, 30⟩ : SessionR).hourly_rate ∧
      (calculate_time_charge ⟨1, 1, 0, none, "Timed", some 30, 30⟩ 0).2 ≤
        (calculate_time_charge ⟨2, 2, 0, none, "Timed", some 90, 30⟩ 0).2) ∧
    (calculate_time_charge ⟨1, 1, 0, none, "Timed", some 30, 30⟩ 0).1 ≤
      (calculate_time_charge ⟨2, 2, 0, none, "Timed", some 90, 30⟩ 0).1 :=
  ⟨⟨by decide, by norm_num, by decide⟩,
    time_charge_monotone ⟨1, 1, 0, none, "Timed", some 30, 30⟩
      ⟨2, 2, 0, none, "Timed", some 90, 30⟩ 0 0 (by decide) (by norm_num) (by decide)⟩

/-- C10: `end_session` on a table with no active session returns
`(0.0, 0)` and leaves the whole database unchanged. -/
theorem end_session_without_active_session (db : DB) (t : Nat) (now : Int)
    (h : fetch_active_session db t = none) :
    end_session db t now = ((0, 0), db) := by
  unfold end_session
  rw [h]

/-- Witness for C10: table 2 of the sample database has no active session. -/
theorem end_session_without_active_session_witness :
    fetch_active_session sampleDB 2 = none ∧
      end_session sampleDB 2 3600 = ((0, 0), sampleDB) :=
  ⟨by decide, end_session_without_active_session sampleDB 2 3600 (by decide)⟩

/-- C5: `add_order` returns False exactly when the table has no active
session, or the product does not exist, or its stock is strictly below the
requested quantity; and whenever it returns False the database is
unchanged. -/
theorem add_order_failure_iff_and_unchanged (db : DB) (t p : Nat) (q : Int) :
    ((add_order db t p q).1 = false ↔
      fetch_active_session db t = none ∨ fetch_product db p = none ∨
        ∃ prod, fetch_product db p = some prod ∧ prod.stock < q) ∧
    ((add_order db t p q).1 = false → (add_order db t p q).2 = db) := by
  cases h1 : fetch_active_session db t with
  | none => simp [add_order, h1]
  | some s =>
    cases h2 : fetch_product db p with
    | none => simp [add_order, h1, h2]
    | some prod =>
      by_cases h3 : prod.stock < q
      · simp [add_order, h1, h2, h3]
      · simp [add_order, h1, h2, h3]

/-- Witness for C5: ordering 500 colas fails on insufficient stock and
leaves the sample database unchanged. -/
theorem add_order_failure_iff_and_unchanged_witness :
    (add_order sampleDB 1 1 500).1 = false ∧
      (add_order sampleDB 1 1 500).2 = sampleDB :=
  ⟨by decide, (add_order_failure_iff_and_unchanged sampleDB 1 1 500).2 (by decide)⟩

/-- C1: on a database with unique product ids and non-negative stocks,
`add_order` never drives any stock negative, and a successful call checks
the requested quantity against the stock read at insertion time. -/
theorem add_order_preserves_stock_nonneg (db : DB) (t p : Nat) (q : Int)
    (hids : (db.products.map (fun pr => pr.id)).Nodup)
    (hnn : ∀ pr ∈ db.products, 0 ≤ pr.stock) :
    (∀ pr ∈ (add_order db t p q).2.products, 0 ≤ pr.stock) ∧
    ((add_order db t p q).1 = true →
      ∃ s prod, fetch_active_session db t = some s ∧ fetch_product db p = some prod ∧
        q ≤ prod.stock ∧
        (add_order db t p q).2.orders =
          db.orders ++ [⟨db.next_order_id, s.id, p, q, prod.price * (q : ℚ)⟩]) := by
  cases h1 : fetch_active_session db t with
  | none =>
    have hred : add_order db t p q = (false, db) := by simp [add_order, h1]
    rw [hred]
    exact ⟨hnn, by simp⟩
  | some s =>
    cases h2 : fetch_product db p with
    | none =>
      have hred : add_order db t p q = (false, db) := by simp [add_order, h1, h2]
      rw [hred]
      exact ⟨hnn, by simp⟩
    | some prod =>
      by_cases h3 : prod.stock < q
      · have hred : add_order db t p q = (false, db) := by simp [add_order, h1, h2, h3]
        rw [hred]
        exact ⟨hnn, by simp⟩
      · have hred : add_order db t p q =
            (true,
             { db with
               orders := db.orders ++
                 [⟨db.next_order_id, s.id, p, q, prod.price * (q : ℚ)⟩]
               next_order_id := db.next_order_id + 1
               products := db.products.map (fun pr =>
                 if pr.id == p then { pr with stock := pr.stock - q } else pr) }) := by
          simp [add_order, h1, h2, h3]
        rw [hred]
        constructor
        · intro pr' hpr'
          rcases List.mem_map.mp hpr' with ⟨pr, hpr, rfl⟩
          by_cases hid : pr.id = p
          · have hprodmem : prod ∈ db.products := List.mem_of_find?_eq_some h2
            have hprodid : prod.id = p := by simpa using List.find?_some h2
            have hpe : pr = prod :=
              List.inj_on_of_nodup_map hids hpr hprodmem (by rw [hprodid, hid])
            subst hpe
            simp only [hid, beq_self_eq_true, if_true]
            have := hnn pr hpr
            omega
          · simp only [beq_iff_eq, hid, if_false]
            exact hnn pr hpr
        · intro _
          exact ⟨s, prod, rfl, rfl, by omega, rfl⟩

/-- Witness for C1: the sample database has distinct product ids and
non-negative stocks. -/
theorem add_order_preserves_stock_nonneg_witness :
    ((sampleDB.products.map (fun pr => pr.id)).Nodup ∧
      ∀ pr ∈ sampleDB.products, 0 ≤ pr.stock) ∧
    ((∀ pr ∈ (add_order sampleDB 1 1 5).2.products, 0 ≤ pr.stock) ∧
      ((add_order sampleDB 1 1 5).1 = true →
        ∃ s prod, fetch_active_session sampleDB 1 = some s ∧
          fetch_product sampleDB 1 = some prod ∧ (5 : ℤ) ≤ prod.stock ∧
          (add_order sampleDB 1 1 5).2.orders =
            sampleDB.orders ++
              [⟨sampleDB.next_order_id, s.id, 1, 5, prod.price * ((5 : ℤ) : ℚ)⟩])) :=
  ⟨⟨by decide, by decide⟩,
    add_order_preserves_stock_nonneg sampleDB 1 1 5 (by decide) (by decide)⟩

/-- Any single operation only ever appends to the orders table, leaving
every already-stored order row (and so its amount) unchanged. -/
lemma step_appends_orders (op : Op) (db : DB) :
    ∃ tail, (step op db).orders = db.orders ++ tail := by
  cases op with
  | startTimed t m now =>
    refine ⟨[], ?_⟩
    cases h : fetch_active_session db t <;> simp [step, start_timed_session, h]
  | startUnlimited t now =>
    refine ⟨[], ?_⟩
    cases h : fetch_active_session db t <;> simp [step, start_unlimited_session, h]
  | addOrder t p q =>
    cases h1 : fetch_active_session db t with
    | none => exact ⟨[], by simp [step, add_order, h1]⟩
    | some s =>
      cases h2 : fetch_product db p with
      | none => exact ⟨[], by simp [step, add_order, h1, h2]⟩
      | some prod =>
        by_cases h3 : prod.stock < q
        · exact ⟨[], by simp [step, add_order, h1, h2, h3]⟩
        · exact ⟨[⟨db.next_order_id, s.id, p, q, prod.price * (q : ℚ)⟩],
            by simp [step, add_order, h1, h2, h3]⟩
  | endSession t now =>
    refine ⟨[], ?_⟩
    cases h : fetch_active_session db t <;> simp [step, end_session, h]
  | markOutOfOrder t =>
    exact ⟨[], by simp [step, mark_table_out_of_order]⟩

/-- Filtering after a row update that can only falsify the filter
predicate never increases the number of selected rows. -/
lemma length_filter_map_le {α : Type} (g : α → α) (p : α → Bool)
    (hp : ∀ x, p (g x) = true → p x = true) :
    ∀ l : List α, ((l.map g).filter p).length ≤ (l.filter p).length := by
  intro l
  induction l with
  | nil => simp
  | cons a l ih =>
    simp only [List.map_cons, List.filter_cons]
    cases h : p (g a) with
    | true =>
      rw [hp a h]
      simpa using ih
    | false =>
      cases h2 : p a with
      | true => simpa using ih.trans (Nat.le_succ _)
      | false => simpa using ih

/-- `add_order` never touches the sessions table. -/
lemma add_order_sessions (db : DB) (t p : Nat) (q : Int) :
    (add_order db t p q).2.sessions = db.sessions := by
  cases h1 : fetch_active_session db t with
  | none => simp [add_order, h1]
  | some s =>
    cases h2 : fetch_product db p with
    | none => simp [add_order, h1, h2]
    | some prod =>
      by_cases h3 : prod.stock < q
      · simp [add_order, h1, h2, h3]
      · simp [add_order, h1, h2, h3]

/-- Each single operation preserves the at-most-one-open-session
invariant. -/
lemma step_preserves_atMostOneOpen (op : Op) (db : DB) (hinv : atMostOneOpen db) :
    atMostOneOpen (step op db) := by
  cases op with
  | startTimed t0 m now =>
    cases h : fetch_active_session db t0 with
    | some s => simpa [step, start_timed_session, h] using hinv
    | none =>
      intro t
      have hsess : (step (Op.startTimed t0 m now) db).sessions =
          db.sessions ++ [⟨db.next_session_id, t0, now, none, "Timed", some m,
            get_hourly_rate db t0⟩] := by
        simp [step, start_timed_session, h]
      unfold openSessions
      rw [hsess, List.filter_append]
      by_cases ht : t0 = t
      · subst ht
        have hnil : db.sessions.filter
            (fun s => s.table_id == t0 && s.end_ts.isNone) = [] := by
          rw [List.filter_eq_nil_iff]
          exact List.find?_eq_none.mp h
        rw [hnil]
        simp
      · have : (List.filter (fun s => s.table_id == t && s.end_ts.isNone)
            [(⟨db.next_session_id, t0, now, none, "Timed", some m,
              get_hourly_rate db t0⟩ : SessionR)]) = [] := by
          simp [ht]
        rw [this, List.append_nil]
        exact hinv t
  | startUnlimited t0 now =>
    cases h : fetch_active_session db t0 with
    | some s => simpa [step, start_unlimited_session, h] using hinv
    | none =>
      intro t
      have hsess : (step (Op.startUnlimited t0 now) db).sessions =
          db.sessions ++ [⟨db.next_session_id, t0, now, none, "Unlimited", none,
            get_hourly_rate db t0⟩] := by
        simp [step, start_unlimited_session, h]
      unfold openSessions
      rw [hsess, List.filter_append]
      by_cases ht : t0 = t
      · subst ht
        have hnil : db.sessions.filter
            (fun s => s.table_id == t0 && s.end_ts.isNone) = [] := by
          rw [List.filter_eq_nil_iff]
          exact List.find?_eq_none.mp h
        rw [hnil]
        simp
      · have : (List.filter (fun s => s.table_id == t && s.end_ts.isNone)
            [(⟨db.next_session_id, t0, now, none, "Unlimited", none,
              get_hourly_rate db t0⟩ : SessionR)]) = [] := by
          simp [ht]
        rw [this, List.append_nil]
        exact hinv t
  | addOrder t0 p q =>
    intro t
    unfold openSessions
    rw [show (step (Op.addOrder t0 p q) db).sessions = db.sessions from
      add_order_sessions db t0 p q]
    exact hinv t
  | endSession t0 now =>
    cases h : fetch_active_session db t0 with
    | none => simpa [step, end_session, h] using hinv
    | some s =>
      intro t
      have hsess : (step (Op.endSession t0 now) db).sessions =
          db.sessions.map (fun s' =>
            if s'.id == s.id then { s' with end_ts := some now } else s') := by
        simp [step, end_session, h]
      unfold openSessions
      rw [hsess]
      refine le_trans (length_filter_map_le _ _ ?_ db.sessions) (hinv t)
      intro x hx
      by_cases hid : x.id = s.id
      · simp [hid] at hx
      · simpa [hid] using hx
  | markOutOfOrder t0 =>
    intro t
    unfold openSessions
    rw [show (step (Op.markOutOfOrder t0) db).sessions = db.sessions from rfl]
    exact hinv t

/-- C3: every sequence of data-layer operations preserves the invariant
that each table has at most one open session, and starting a session on a
table that already has an active one changes nothing. -/
theorem ops_at_most_one_open_session (db : DB) (ops : List Op) (t : Nat)
    (m now : Int) (hinv : atMostOneOpen db) :
    atMostOneOpen (run ops db) ∧
    ((fetch_active_session db t).isSome = true →
      start_timed_session db t m now = db ∧ start_unlimited_session db t now = db) := by
  constructor
  · induction ops generalizing db with
    | nil => exact hinv
    | cons op ops ih =>
      exact ih (step op db) (step_preserves_atMostOneOpen op db hinv)
  · intro hs
    rcases Option.isSome_iff_exists.mp hs with ⟨s, hs'⟩
    constructor
    · unfold start_timed_session
      rw [hs']
    · unfold start_unlimited_session
      rw [hs']

/-- Witness for C3: run a start-order-end sequence from the sample
database. -/
theorem ops_at_most_one_open_session_witness :
    atMostOneOpen sampleDB ∧
    (atMostOneOpen (run [Op.endSession 1 3600, Op.startTimed 2 60 3700,
        Op.addOrder 2 1 2, Op.endSession 2 7200] sampleDB) ∧
      ((fetch_active_session sampleDB 1).isSome = true →
        start_timed_session sampleDB 1 60 100 = sampleDB ∧
        start_unlimited_session sampleDB 1 100 = sampleDB)) := by
  have hinv : atMostOneOpen sampleDB := by
    intro t
    exact le_trans (List.length_filter_le _ _) (by simp [sampleDB])
  exact ⟨hinv, ops_at_most_one_open_session sampleDB
    [Op.endSession 1 3600, Op.startTimed 2 60 3700, Op.addOrder 2 1 2,
      Op.endSession 2 7200] 1 60 100 hinv⟩

/-- C7: after `end_session` on a table with an active session, that
session carries the (non-null) close timestamp, and no operation ever
resets a non-null end timestamp of a stored session back to null. -/
theorem end_session_sets_end_ts (db : DB) (t : Nat) (now : Int) (s : SessionR)
    (hs : fetch_active_session db t = some s) :
    (∀ s' ∈ (end_session db t now).2.sessions, s'.id = s.id → s'.end_ts = some now) ∧
    (∀ op : Op, ∀ i, i < db.sessions.length →
      (db.sessions.getD i default).end_ts ≠ none →
      ((step op db).sessions.getD i default).end_ts ≠ none) := by
  constructor
  · intro s' hmem hid
    have hred : (end_session db t now).2.sessions =
        db.sessions.map (fun x =>
          if x.id == s.id then { x with end_ts := some now } else x) := by
      simp [end_session, hs]
    rw [hred] at hmem
    rcases List.mem_map.mp hmem with ⟨x, hx, rfl⟩
    by_cases hxi : x.id = s.id
    · simp [hxi]
    · rw [if_neg (by simpa using hxi)] at hid
      exact absurd hid hxi
  · intro op i hi hne
    cases op with
    | startTimed t0 m0 n0 =>
      cases h : fetch_active_session db t0 with
      | some _ => simpa [step, start_timed_session, h] using hne
      | none =>
        have hred : (step (Op.startTimed t0 m0 n0) db).sessions =
            db.sessions ++ [⟨db.next_session_id, t0, n0, none, "Timed", some m0,
              get_hourly_rate db t0⟩] := by
          simp [step, start_timed_session, h]
        rw [hred, List.getD_append _ _ _ _ hi]
        exact hne
    | startUnlimited t0 n0 =>
      cases h : fetch_active_session db t0 with
      | some _ => simpa [step, start_unlimited_session, h] using hne
      | none =>
        have hred : (step (Op.startUnlimited t0 n0) db).sessions =
            db.sessions ++ [⟨db.next_session_id, t0, n0, none, "Unlimited", none,
              get_hourly_rate db t0⟩] := by
          simp [step, start_unlimited_session, h]
        rw [hred, List.getD_append _ _ _ _ hi]
        exact hne
    | addOrder t0 p0 q0 =>
      rw [show (step (Op.addOrder t0 p0 q0) db).sessions = db.sessions from
        add_order_sessions db t0 p0 q0]
      exact hne
    | endSession t0 n0 =>
      cases h : fetch_active_session db t0 with
      | none => simpa [step, end_session, h] using hne
      | some s0 =>
        have hred : (step (Op.endSession t0 n0) db).sessions =
            db.sessions.map (fun x =>
              if x.id == s0.id then { x with end_ts := some n0 } else x) := by
          simp [step, end_session, h]
        rw [hred]
        have hlen : i < (db.sessions.map (fun x =>
            if x.id == s0.id then { x with end_ts := some n0 } else x)).length := by
          simpa using hi
        rw [List.getD_eq_getElem _ _ hlen, List.getElem_map]
        rw [List.getD_eq_getElem _ _ hi] at hne
        by_cases hxi : (db.sessions[i]).id = s0.id
        · simp [hxi]
        · simpa [hxi] using hne
    | markOutOfOrder t0 =>
      exact hne

/-- Witness for C7: closing the open session of table 1 of the sample
database. -/
theorem end_session_sets_end_ts_witness :
    fetch_active_session sampleDB 1 = some ⟨1, 1, 0, none, "Unlimited", none, 30⟩ ∧
    ((∀ s' ∈ (end_session sampleDB 1 3600).2.sessions,
        s'.id = (⟨1, 1, 0, none, "Unlimited", none, 30⟩ : SessionR).id →
        s'.end_ts = some 3600) ∧
      (∀ op : Op, ∀ i, i < sampleDB.sessions.length →
        (sampleDB.sessions.getD i default).end_ts ≠ none →
        ((step op sampleDB).sessions.getD i default).end_ts ≠ none)) :=
  ⟨by decide, end_session_sets_end_ts sampleDB 1 3600
    ⟨1, 1, 0, none, "Unlimited", none, 30⟩ (by decide)⟩

/-- C9: starting a session on a table with no active session sets its
status to Occupied, and `end_session` on a table with an active session
sets the status to OutOfOrder when the out-of-order flag is 1 and to Empty
otherwise. -/
theorem session_ops_drive_table_status (db : DB) (t : Nat) (m now : Int) :
    (fetch_active_session db t = none →
      (∀ tb ∈ (start_timed_session db t m now).tables, tb.id = t →
        tb.status = "Occupied") ∧
      (∀ tb ∈ (start_unlimited_session db t now).tables, tb.id = t →
        tb.status = "Occupied")) ∧
    (∀ s, fetch_active_session db t = some s →
      ∀ i, i < db.tables.length →
        (db.tables.getD i default).id = t →
        ((end_session db t now).2.tables.getD i default).status =
          (if (db.tables.getD i default).is_out_of_order = 1 then "OutOfOrder"
           else "Empty")) := by
  constructor
  · intro h
    constructor
    · intro tb hmem hid
      have hred : (start_timed_session db t m now).tables =
          db.tables.map (fun x =>
            if x.id == t then { x with status := "Occupied" } else x) := by
        simp [start_timed_session, h]
      rw [hred] at hmem
      rcases List.mem_map.mp hmem with ⟨x, hx, rfl⟩
      by_cases hxi : x.id = t
      · simp [hxi]
      · rw [if_neg (by simpa using hxi)] at hid
        exact absurd hid hxi
    · intro tb hmem hid
      have hred : (start_unlimited_session db t now).tables =
          db.tables.map (fun x =>
            if x.id == t then { x with status := "Occupied" } else x) := by
        simp [start_unlimited_session, h]
      rw [hred] at hmem
      rcases List.mem_map.mp hmem with ⟨x, hx, rfl⟩
      by_cases hxi : x.id = t
      · simp [hxi]
      · rw [if_neg (by simpa using hxi)] at hid
        exact absurd hid hxi
  · intro s hs i hi hid
    have hred : (end_session db t now).2.tables =
        db.tables.map (fun x =>
          if x.id == t then
            { x with status := if x.is_out_of_order = 1 then "OutOfOrder" else "Empty" }
          else x) := by
      simp [end_session, hs]
    rw [hred]
    have hlen : i < (db.tables.map (fun x =>
        if x.id == t then
          { x with status := if x.is_out_of_order = 1 then "OutOfOrder" else "Empty" }
        else x)).length := by
      simpa using hi
    rw [List.getD_eq_getElem _ _ hlen, List.getElem_map]
    rw [List.getD_eq_getElem _ _ hi] at hid ⊢
    simp [hid]

/-- Witness for C9: starting on the empty table 2 and closing the active
session of table 1 in the sample database. -/
theorem session_ops_drive_table_status_witness :
    (fetch_active_session sampleDB 2 = none ∧
      fetch_active_session sampleDB 1 = some ⟨1, 1, 0, none, "Unlimited", none, 30⟩) ∧
    ((fetch_active_session sampleDB 2 = none →
      (∀ tb ∈ (start_timed_session sampleDB 2 60 100).tables, tb.id = 2 →
        tb.status = "Occupied") ∧
      (∀ tb ∈ (start_unlimited_session sampleDB 2 100).tables, tb.id = 2 →
        tb.status = "Occupied")) ∧
    (∀ s, fetch_active_session sampleDB 1 = some s →
      ∀ i, i < sampleDB.tables.length →
        (sampleDB.tables.getD i default).id = 1 →
        ((end_session sampleDB 1 3600).2.tables.getD i default).status =
          (if (sampleDB.tables.getD i default).is_out_of_order = 1 then "OutOfOrder"
           else "Empty"))) :=
  ⟨⟨by decide, by decide⟩,
    ⟨(session_ops_drive_table_status sampleDB 2 60 100).1,
      (session_ops_drive_table_status sampleDB 1 60 3600).2⟩⟩

/-- Branch lemma: a Timed session with a truthy planned duration is billed
exactly the planned minutes, with no one-minute floor. -/
lemma calculate_timed (s : SessionR) (now : Int) (m : Int)
    (hp : s.planned_minutes = some m) (hk : s.kind = "Timed") (hm : m ≠ 0) :
    calculate_time_charge s now = (round2 (s.hourly_rate * (m : ℚ) / 60), m) := by
  simp [calculate_time_charge, hp, hk, hm]

/-- Branch lemma: any session that is not a Timed session with a truthy
planned duration is billed by elapsed wall-clock minutes, floored at one
minute. -/
lemma calculate_wall_clock (s : SessionR) (now : Int)
    (hcond : s.kind = "Timed" → s.planned_minutes = none ∨ s.planned_minutes = some 0) :
    calculate_time_charge s now =
      (round2 (s.hourly_rate * ((max 1 (elapsedMinutes s.start_ts now) : ℤ) : ℚ) / 60),
        max 1 (elapsedMinutes s.start_ts now)) := by
  have hmax : (if elapsedMinutes s.start_ts now < 1 then 1
      else elapsedMinutes s.start_ts now) = max 1 (elapsedMinutes s.start_ts now) := by
    split_ifs with h
    · exact (max_eq_left (by omega)).symm
    · exact (max_eq_right (by omega)).symm
  cases hp : s.planned_minutes with
  | none => simp [calculate_time_charge, hp, hmax]
  | some m =>
    by_cases hk : s.kind = "Timed"
    · rcases hcond hk with h0 | h0
      · rw [hp] at h0
        exact absurd h0 (by simp)
      · rw [hp] at h0
        have hm : m = 0 := by simpa using h0
        subst hm
        simp [calculate_time_charge, hp, hmax]
    · simp [calculate_time_charge, hp, hk, hmax]

/-- C2 (amended): `end_session` returns the pair computed by
`_calculate_time_charge` on the closed session: for a Timed session with a
non-null, nonzero planned duration the billed minutes are exactly the
planned duration (no one-minute floor) and the charge is the hourly rate
times those minutes over 60 rounded to two decimals; for every other
session the billed minutes are the elapsed wall-clock minutes rounded to
the nearest minute with a minimum of one, charged the same way. -/
theorem end_session_charge_formula (db : DB) (t : Nat) (now : Int) (s : SessionR)
    (hs : fetch_active_session db t = some s) :
    (end_session db t now).1 = calculate_time_charge s now ∧
    (∀ m, s.planned_minutes = some m → s.kind = "Timed" → m ≠ 0 →
      calculate_time_charge s now = (round2 (s.hourly_rate * (m : ℚ) / 60), m)) ∧
    ((s.kind = "Timed" → s.planned_minutes = none ∨ s.planned_minutes = some 0) →
      calculate_time_charge s now =
        (round2 (s.hourly_rate * ((max 1 (elapsedMinutes s.start_ts now) : ℤ) : ℚ) / 60),
          max 1 (elapsedMinutes s.start_ts now))) :=
  ⟨by simp [end_session, hs],
    fun m hp hk hm => calculate_timed s now m hp hk hm,
    fun hcond => calculate_wall_clock s now hcond⟩

/-- Counterexample to C2 as stated: a Timed session whose planned duration
is 0 is billed by wall clock (100 minutes here), not by its planned
duration, and a Timed session with planned duration -5 is billed -5
minutes, below the claimed one-minute floor. -/
theorem timed_planned_charge_cex :
    (calculate_time_charge ⟨1, 1, 0, none, "Timed", some 0, 60⟩ 6000).2 = 100 ∧
    (calculate_time_charge ⟨1, 1, 0, none, "Timed", some 0, 60⟩ 6000).2 ≠ 0 ∧
    (calculate_time_charge ⟨2, 1, 0, none, "Timed", some (-5), 60⟩ 0).2 < 1 := by
  norm_num [calculate_time_charge, elapsedMinutes, rhe]

/-- Witness for C2 (amended) at the open Unlimited session of the sample
database. -/
theorem end_session_charge_formula_witness :
    fetch_active_session sampleDB 1 = some ⟨1, 1, 0, none, "Unlimited", none, 30⟩ ∧
    ((end_session sampleDB 1 3600).1 =
        calculate_time_charge ⟨1, 1, 0, none, "Unlimited", none, 30⟩ 3600 ∧
      (∀ m, (⟨1, 1, 0, none, "Unlimited", none, 30⟩ : SessionR).planned_minutes = some m →
        (⟨1, 1, 0, none, "Unlimited", none, 30⟩ : SessionR).kind = "Timed" → m ≠ 0 →
        calculate_time_charge ⟨1, 1, 0, none, "Unlimited", none, 30⟩ 3600 =
          (round2 ((⟨1, 1, 0, none, "Unlimited", none, 30⟩ : SessionR).hourly_rate *
            (m : ℚ) / 60), m)) ∧
      (((⟨1, 1, 0, none, "Unlimited", none, 30⟩ : SessionR).kind = "Timed" →
        (⟨1, 1, 0, none, "Unlimited", none, 30⟩ : SessionR).planned_minutes = none ∨
        (⟨1, 1, 0, none, "Unlimited", none, 30⟩ : SessionR).planned_minutes = some 0) →
        calculate_time_charge ⟨1, 1, 0, none, "Unlimited", none, 30⟩ 3600 =
          (round2 ((⟨1, 1, 0, none, "Unlimited", none, 30⟩ : SessionR).hourly_rate *
            ((max 1 (elapsedMinutes
              (⟨1, 1, 0, none, "Unlimited", none, 30⟩ : SessionR).start_ts 3600) : ℤ) : ℚ) / 60),
            max 1 (elapsedMinutes
              (⟨1, 1, 0, none, "Unlimited", none, 30⟩ : SessionR).start_ts 3600)))) :=
  ⟨by decide, end_session_charge_formula sampleDB 1 3600
    ⟨1, 1, 0, none, "Unlimited", none, 30⟩ (by decide)⟩

/-- C8 (amended): a Timed session with a non-null, nonzero planned
duration is charged from the planned duration, independently of the
wall-clock time at close; an Unlimited session, and likewise a Timed
session with a null or zero planned duration, is charged from the elapsed
wall-clock time between start and close. -/
theorem session_kind_billing_source (s : SessionR) (now now' : Int) :
    (∀ m, s.kind = "Timed" → s.planned_minutes = some m → m ≠ 0 →
      calculate_time_charge s now = calculate_time_charge s now' ∧
      calculate_time_charge s now = (round2 (s.hourly_rate * (m : ℚ) / 60), m)) ∧
    (s.kind = "Unlimited" ∨
      (s.kind = "Timed" ∧ (s.planned_minutes = none ∨ s.planned_minutes = some 0)) →
      calculate_time_charge s now =
        (round2 (s.hourly_rate * ((max 1 (elapsedMinutes s.start_ts now) : ℤ) : ℚ) / 60),
          max 1 (elapsedMinutes s.start_ts now))) := by
  constructor
  · intro m hk hp hm
    have h1 := calculate_timed s now m hp hk hm
    have h2 := calculate_timed s now' m hp hk hm
    exact ⟨h1.trans h2.symm, h1⟩
  · intro hk
    refine calculate_wall_clock s now ?_
    intro h
    rcases hk with hk | hk
    · rw [hk] at h
      exact absurd h (by decide)
    · exact hk.2

/-- Counterexample to C8 as stated: the charge of a Timed session with
planned duration 0 depends on the wall-clock time at close. -/
theorem timed_charge_wall_clock_cex :
    (calculate_time_charge ⟨1, 1, 0, none, "Timed", some 0, 60⟩ 60).1 ≠
      (calculate_time_charge ⟨1, 1, 0, none, "Timed", some 0, 60⟩ 6000).1 := by
  norm_num [calculate_time_charge, elapsedMinutes, rhe, round2]

/-- Witness for C8 (amended) at three concrete sessions: Timed with a
truthy planned duration, Unlimited, and Timed with planned duration 0. -/
theorem session_kind_billing_source_witness :
    ((⟨1, 1, 0, none, "Timed", some 60, 30⟩ : SessionR).kind = "Timed" ∧
      (⟨1, 1, 0, none, "Unlimited", none, 30⟩ : SessionR).kind = "Unlimited" ∧
      ((⟨1, 1, 0, none, "Timed", some 0, 30⟩ : SessionR).kind = "Timed" ∧
        (⟨1, 1, 0, none, "Timed", some 0, 30⟩ : SessionR).planned_minutes = some 0)) ∧
    ((∀ m, (⟨1, 1, 0, none, "Timed", some 60, 30⟩ : SessionR).kind = "Timed" →
      (⟨1, 1, 0, none, "Timed", some 60, 30⟩ : SessionR).planned_minutes = some m →
      m ≠ 0 →
      calculate_time_charge ⟨1, 1, 0, none, "Timed", some 60, 30⟩ 100 =
        calculate_time_charge ⟨1, 1, 0, none, "Timed", some 60, 30⟩ 9999 ∧
      calculate_time_charge ⟨1, 1, 0, none, "Timed", some 60, 30⟩ 100 =
        (round2 ((⟨1, 1, 0, none, "Timed", some 60, 30⟩ : SessionR).hourly_rate *
          (m : ℚ) / 60), m)) ∧
    (((⟨1, 1, 0, none, "Unlimited", none, 30⟩ : SessionR).kind = "Unlimited" ∨
      ((⟨1, 1, 0, none, "Unlimited", none, 30⟩ : SessionR).kind = "Timed" ∧
        ((⟨1, 1, 0, none, "Unlimited", none, 30⟩ : SessionR).planned_minutes = none ∨
          (⟨1, 1, 0, none, "Unlimited", none, 30⟩ : SessionR).planned_minutes = some 0)) →
      calculate_time_charge ⟨1, 1, 0, none, "Unlimited", none, 30⟩ 100 =
        (round2 ((⟨1, 1, 0, none, "Unlimited", none, 30⟩ : SessionR).hourly_rate *
          ((max 1 (elapsedMinutes
            (⟨1, 1, 0, none, "Unlimited", none, 30⟩ : SessionR).start_ts 100) : ℤ) : ℚ) / 60),
          max 1 (elapsedMinutes
            (⟨1, 1, 0, none, "Unlimited", none, 30⟩ : SessionR).start_ts 100))) ∧
    ((⟨1, 1, 0, none, "Timed", some 0, 30⟩ : SessionR).kind = "Unlimited" ∨
      ((⟨1, 1, 0, none, "Timed", some 0, 30⟩ : SessionR).kind = "Timed" ∧
        ((⟨1, 1, 0, none, "Timed", some 0, 30⟩ : SessionR).planned_minutes = none ∨
          (⟨1, 1, 0, none, "Timed", some 0, 30⟩ : SessionR).planned_minutes = some 0)) →
      calculate_time_charge ⟨1, 1, 0, none, "Timed", some 0, 30⟩ 100 =
        (round2 ((⟨1, 1, 0, none, "Timed", some 0, 30⟩ : SessionR).hourly_rate *
          ((max 1 (elapsedMinutes
            (⟨1, 1, 0, none, "Timed", some 0, 30⟩ : SessionR).start_ts 100) : ℤ) : ℚ) / 60),
          max 1 (elapsedMinutes
            (⟨1, 1, 0, none, "Timed", some 0, 30⟩ : SessionR).start_ts 100))))) :=
  ⟨⟨by decide, by decide, by decide, by decide⟩,
    ⟨(session_kind_billing_source ⟨1, 1, 0, none, "Timed", some 60, 30⟩ 100 9999).1,
      (session_kind_billing_source ⟨1, 1, 0, none, "Unlimited", none, 30⟩ 100 9999).2,
      (session_kind_billing_source ⟨1, 1, 0, none, "Timed", some 0, 30⟩ 100 9999).2⟩⟩

/-- C4: a successful `add_order` stores the current price times the
quantity as the order amount, and no later operation rewrites a stored
order row, so the amount is never recomputed from a later price. -/
theorem order_amount_captured_at_order_time (db : DB) (t p : Nat) (q : Int) (op : Op) :
    ((add_order db t p q).1 = true →
      ∃ s prod, fetch_active_session db t = some s ∧ fetch_product db p = some prod ∧
        (add_order db t p q).2.orders =
          db.orders ++ [⟨db.next_order_id, s.id, p, q, prod.price * (q : ℚ)⟩]) ∧
    (∃ tail, (step op db).orders = db.orders ++ tail) := by
  refine ⟨?_, step_appends_orders op db⟩
  cases h1 : fetch_active_session db t with
  | none => simp [add_order, h1]
  | some s =>
    cases h2 : fetch_product db p with
    | none => simp [add_order, h1, h2]
    | some prod =>
      by_cases h3 : prod.stock < q
      · simp [add_order, h1, h2, h3]
      · intro _
        exact ⟨s, prod, rfl, rfl, by simp [add_order, h1, h2, h3]⟩

/-- Witness for C4 at a successful concrete order. -/
theorem order_amount_captured_at_order_time_witness :
    (add_order sampleDB 1 2 3).1 = true ∧
    (((add_order sampleDB 1 2 3).1 = true →
      ∃ s prod, fetch_active_session sampleDB 1 = some s ∧
        fetch_product sampleDB 2 = some prod ∧
        (add_order sampleDB 1 2 3).2.orders =
          sampleDB.orders ++
            [⟨sampleDB.next_order_id, s.id, 2, 3, prod.price * ((3 : ℤ) : ℚ)⟩]) ∧
    (∃ tail, (step (Op.markOutOfOrder 2) sampleDB).orders = sampleDB.orders ++ tail)) :=
  ⟨by decide, order_amount_captured_at_order_time sampleDB 1 2 3 (Op.markOutOfOrder 2)⟩
